import Mathlib

/-!
# Verification of `sendemail.py` (Alan-R/sendemails)

A shallow embedding of the core logic of `sendemail.py`: the duplicate
guard (`format_and_send_email` lines 92-99), keyword resolution
(lines 100-121), template substitution (`substitute_text`,
`find_keywords`), the send-time scheduler (`should_send_now`), the
per-recipient orchestrator (`format_and_send_email`,
`send_emails_to_csv_people`, `test_emails_to_csv_people`) and the CSV
driver (`process_csv_file`).

Modelling conventions:
* Python `str` is Lean `String`; helper functions (`pyStrip`, `pyLower`,
  `splitComma`, ...) mirror the exact Python operations used by the source
  (`str.strip`, `str.lower`, `str.split(',')`, `str.replace`, ...),
  restricted to the character classes the source manipulates.
* Python dicts whose only observed operations are `in`, `[]` and
  item-assignment are insertion-ordered association lists (`KwMap`),
  with `alookup` / `memk` / `aset` for `[]` / `in` / assignment.
* `datetime.now(tz)` and `pytz.timezone` are modelled by an environment
  `Env`: the run happens at one fixed instant, and `Env.tzinfo` maps a
  time-zone name to the local-time data (`hour`, `weekday`, and the
  three `strftime` renderings used by the source) at that instant;
  `Env.tzinfo name = none` models `pytz.exceptions.UnknownTimeZoneError`.
* A raised Python exception is an `Except.error` carrying a `PyErr`;
  because the duplicate registries `allnames` / `allemails` are module
  globals that survive a raised exception, every stateful function
  returns its (possibly mutated) `Registry` alongside the `Except`.
* `send_an_email` (pure I/O transport) is not executed; a call to it is
  recorded as a `Msg` value (`FSResult.sent`).
-/

deriving instance DecidableEq for Except

/-- Python `str.strip()` (for the whitespace characters Lean knows). -/
def pyStrip (s : String) : String :=
  ⟨((s.data.dropWhile Char.isWhitespace).reverse.dropWhile Char.isWhitespace).reverse⟩

/-- Python `str.lower()` (ASCII case folding, as used by the source). -/
def pyLower (s : String) : String :=
  ⟨s.data.map Char.toLower⟩

/-- Python `str.split(',')` on a character list. -/
def splitCommaL : List Char → List (List Char)
  | [] => [[]]
  | c :: rest =>
    if c = ',' then [] :: splitCommaL rest
    else
      match splitCommaL rest with
      | [] => [[c]]
      | t :: ts => (c :: t) :: ts

/-- Python `str.split(',')`. -/
def splitComma (s : String) : List String :=
  (splitCommaL s.data).map (fun l => ⟨l⟩)

/-- Python `name.split(' ', 1)[0]`: the text before the first space. -/
def firstTok (s : String) : String :=
  ⟨s.data.takeWhile (fun c => c ≠ ' ')⟩

/-- Does the string contain the character? (Python `c in s`.) -/
def hasChar (s : String) (c : Char) : Bool :=
  s.data.any (fun d => d = c)

/-- Parse a run of decimal digits (used by the model of Python `int`). -/
def digitsToNat? : List Char → Option Nat
  | [] => none
  | ds =>
    if ds.all Char.isDigit then
      some (ds.foldl (fun n c => 10 * n + (c.toNat - 48)) 0)
    else none

/-- Python `int(s)` restricted to the literals the source feeds it:
optional surrounding whitespace, an optional sign, then decimal digits;
`none` models the `ValueError` Python raises otherwise. -/
def pyInt (s : String) : Option Int :=
  match (pyStrip s).data with
  | '-' :: ds => (digitsToNat? ds).map (fun n => -(n : Int))
  | '+' :: ds => (digitsToNat? ds).map (fun n => (n : Int))
  | ds => (digitsToNat? ds).map (fun n => (n : Int))

/-- Insertion-ordered string-to-string mapping: the model of the Python
dicts used for keywords, SMTP configuration and the duplicate registries. -/
abbrev KwMap := List (String × String)

/-- Python `m[k]` as an `Option` (first binding wins, as in a dict whose
keys are unique). -/
def alookup : KwMap → String → Option String
  | [], _ => none
  | (k', v) :: rest, k => if k' = k then some v else alookup rest k

/-- Python `k in m`. -/
def memk (m : KwMap) (k : String) : Bool :=
  (alookup m k).isSome

/-- Python `m[k] = v`: overwrite an existing binding in place, else append
(insertion order, as for Python 3.7+ dicts). -/
def aset : KwMap → String → String → KwMap
  | [], k, v => [(k, v)]
  | (k', v') :: rest, k, v =>
    if k' = k then (k, v) :: rest else (k', v') :: aset rest k v

/-- The duplicate registries: module globals `allemails` and `allnames`
of `sendemail.py` (lower-cased email ↦ lower-cased name, and
lower-cased name ↦ lower-cased email). -/
structure Registry where
  allemails : KwMap
  allnames : KwMap
deriving DecidableEq

/-- The empty registries at the start of a run. -/
def emptyRegistry : Registry := ⟨[], []⟩

/-- Outcome of the duplicate-guard segment for one recipient. -/
inductive Outcome
  | accepted
  | duplicateEmail
  | duplicateName
deriving DecidableEq

/-- The Duplicate Guard: `format_and_send_email` lines 92-99.
`if dest.lower() in allemails: return` — then `allemails[dest.lower()] =
name.lower()` — then `if name.lower() in allnames: return` — then
`allnames[name.lower()] = dest.lower()`.  Note the email is recorded
*before* the name check. -/
def check_and_register (reg : Registry) (dest name : String) : Outcome × Registry :=
  let el := pyLower dest
  let nl := pyLower name
  if memk reg.allemails el then (.duplicateEmail, reg)
  else
    let reg1 : Registry := { reg with allemails := aset reg.allemails el nl }
    if memk reg1.allnames nl then (.duplicateName, reg1)
    else (.accepted, { reg1 with allnames := aset reg1.allnames nl el })

/-- Run the Duplicate Guard over a whole sequence of (email, name) pairs,
returning the final registries and the per-pair outcomes. -/
def runGuard (reg : Registry) : List (String × String) → Registry × List Outcome
  | [] => (reg, [])
  | (e, n) :: rest =>
    let step := check_and_register reg e n
    let tail := runGuard step.2 rest
    (tail.1, step.1 :: tail.2)

/-- Modelled from the spec (for comparison with the code): the spec's
Duplicate Guard sentence — the N-th pair is Accepted iff neither its
lower-cased email nor its lower-cased name appeared in any earlier
*Accepted* pair.  `es`/`ns` carry the emails and names of the earlier
accepted pairs. -/
def specAccepted (es ns : List String) : List (String × String) → List Bool
  | [] => []
  | (e, n) :: rest =>
    let el := pyLower e
    let nl := pyLower n
    if el ∈ es ∨ nl ∈ ns then false :: specAccepted es ns rest
    else true :: specAccepted (el :: es) (nl :: ns) rest

/-- The amended acceptance predicate, following the code: the N-th pair
is Accepted iff its lower-cased email was not recorded by an earlier
pair that passed the email check (accepted *or* name-rejected) and its
lower-cased name was not recorded by an earlier accepted pair. -/
def amendedAccepted (es ns : List String) : List (String × String) → List Bool
  | [] => []
  | (e, n) :: rest =>
    let el := pyLower e
    let nl := pyLower n
    if el ∈ es then false :: amendedAccepted es ns rest
    else if nl ∈ ns then false :: amendedAccepted (el :: es) ns rest
    else true :: amendedAccepted (el :: es) (nl :: ns) rest

/-- The Python exceptions raised by the embedded code paths. -/
inductive PyErr
  | keyError (key : String)
  | invalidAddress (name dest : String)
  | unknownTimeZone (tzname : String)
  | undefinedKeyword (kw : String)
  | illegalSendDay (day : String)
  | badIntLiteral (lit : String)
  | rowArity (line : String) (got expected : Nat)
  | staleTemplate (ageSeconds : Int)
deriving DecidableEq

/-- Is `pat` a prefix of `s`? -/
def startsWithL : List Char → List Char → Bool
  | [], _ => true
  | _ :: _, [] => false
  | p :: ps, c :: cs => p = c && startsWithL ps cs

/-- The scan behind `find_keywords`: the Python regex
`re.compile('@@([^@]+)@@').findall(text)` — leftmost non-overlapping
matches of `@@`, one or more non-`@` characters, `@@`; on a failed match
the scan advances one character, on a successful match it resumes after
the match.  `fuel` only bounds the recursion; every step consumes at
least one character, so `fuel = text.length` is exact. -/
def findKWFuel : Nat → List Char → List (List Char)
  | 0, _ => []
  | _ + 1, [] => []
  | fuel + 1, c :: rest =>
    if c = '@' then
      match rest with
      | '@' :: r2 =>
        let run := r2.takeWhile (fun d => d ≠ '@')
        let after := r2.dropWhile (fun d => d ≠ '@')
        if run = [] then findKWFuel fuel rest
        else
          match after with
          | '@' :: '@' :: tail => run :: findKWFuel fuel tail
          | _ => findKWFuel fuel rest
      | _ => findKWFuel fuel rest
    else findKWFuel fuel rest

/-- `find_keywords(text)` of `sendemail.py` (lines 193-199). -/
def find_keywords (s : String) : List String :=
  (findKWFuel s.data.length s.data).map (fun l => ⟨l⟩)

/-- Python `s.replace(pat, rep)` for non-empty `pat`: replace every
leftmost non-overlapping occurrence.  `fuel = s.length` is exact since
every step consumes at least one character. -/
def replaceFuel (pat rep : List Char) : Nat → List Char → List Char
  | 0, s => s
  | _ + 1, [] => []
  | fuel + 1, c :: rest =>
    if pat ≠ [] && startsWithL pat (c :: rest) then
      rep ++ replaceFuel pat rep fuel ((c :: rest).drop pat.length)
    else c :: replaceFuel pat rep fuel rest

/-- Python `s.replace(pat, rep)`. -/
def pyReplace (s pat rep : String) : String :=
  ⟨replaceFuel pat.data rep.data s.data.length s.data⟩

/-- The loop body of `substitute_text` (lines 185-190): for each keyword
found in the original text, in discovery order, fail if it is unbound,
else replace every occurrence of `@@keyword@@` in the accumulated text. -/
def substLoop (keys : KwMap) : List String → String → Except PyErr String
  | [], out => .ok out
  | kw :: rest, out =>
    match alookup keys kw with
    | none => .error (.undefinedKeyword kw)
    | some v => substLoop keys rest (pyReplace out ("@@" ++ kw ++ "@@") v)

/-- `substitute_text(text, keys)` of `sendemail.py` (lines 176-191). -/
def substitute_text (text : String) (keys : KwMap) : Except PyErr String :=
  substLoop keys (find_keywords text) text

/-- The `WEEKDAYS` tuple of `sendemail.py` (lines 137-138). -/
def WEEKDAYS : List String :=
  ["monday", "tuesday", "wednesday", "thursday", "friday", "saturday", "sunday"]

/-- The index-search loop of `should_send_now` (lines 167-171). -/
def weekdayIndexLoop (s : String) : List String → Nat → Option Nat
  | [], _ => none
  | w :: rest, i => if s = w then some i else weekdayIndexLoop s rest (i + 1)

/-- What `datetime.now(tz)` yields for one time zone at the run's fixed
instant: the local hour, the weekday (`Monday=0..Sunday=6`), and the
three `strftime` renderings the source uses. -/
structure TzData where
  hour : Nat
  weekday : Nat
  dateStr : String
  todayStr : String
  yearStr : String
deriving DecidableEq

/-- The run's ambient world: `pytz.timezone` composed with
`datetime.now` at the fixed instant (`none` models
`UnknownTimeZoneError`), the template file's age in seconds
(`time.time() - os.path.getmtime(bodyfile)`), and the template file's
first line (`readline()`) and remainder (`read()`). -/
structure Env where
  tzinfo : String → Option TzData
  fileAgeSeconds : Int
  templateSubject : String
  templateBody : String

/-- The command-line flags dict (only `dontsend` and `debug` are read by
the embedded code; `debug` only controls printing). -/
structure Flags where
  dontsend : Bool
  debug : Bool
deriving DecidableEq

/-- `should_send_now(keywords, flags)` of `sendemail.py` (lines 140-174).
No `sendhour` means always send; otherwise the recipient-zone hour must
equal `int(sendhour)` (the zone is looked up first, as in the source);
then, if `sendday` is given, the recipient-zone weekday must match the
(case-insensitively) named day, an unrecognized name raising
`ValueError` (the spec's `UnknownSendDayError`). -/
def should_send_now (keywords : KwMap) (_flags : Flags) (env : Env) : Except PyErr Bool :=
  match alookup keywords "sendhour" with
  | none => .ok true
  | some sh =>
    match alookup keywords "timezone" with
    | none => .error (.keyError "timezone")
    | some tzn =>
      match env.tzinfo tzn with
      | none => .error (.unknownTimeZone tzn)
      | some tz =>
        match pyInt sh with
        | none => .error (.badIntLiteral sh)
        | some shn =>
          if (tz.hour : Int) ≠ shn then .ok false
          else
            match alookup keywords "sendday" with
            | none => .ok true
            | some sendday =>
              match weekdayIndexLoop (pyLower sendday) WEEKDAYS 0 with
              | none => .error (.illegalSendDay sendday)
              | some i => .ok (i == tz.weekday)

/-- Is `k` one of the keys `format_and_send_email` (line 110) refuses to
copy from the SMTP configuration? -/
def reservedKey (k : String) : Bool :=
  k = "login" || k = "password" || k = "plainbody" || k = "htmlbody"

/-- The configuration-merge loop of `format_and_send_email`
(lines 109-112): copy each SMTP key, in insertion order, unless it is
reserved or already present in the keyword mapping. -/
def merge_config (keywords : KwMap) : KwMap → KwMap
  | [] => keywords
  | (k, v) :: rest =>
    merge_config
      (if reservedKey k || memk keywords k then keywords else aset keywords k v)
      rest

/-- The firstname-derivation step of `format_and_send_email`
(lines 100-104): derive `firstname` from `name` when absent. -/
def set_firstname (keywords : KwMap) (name : String) : KwMap :=
  if memk keywords "firstname" then keywords
  else aset keywords "firstname" (firstTok name)

/-- The date-keyword block of `format_and_send_email` (lines 117-121):
`Date` is set unconditionally; `Today` and `Year` only when absent. -/
def set_dates (keywords : KwMap) (tz : TzData) : KwMap :=
  let kw3 := aset keywords "Date" tz.dateStr
  let kw4 := if memk kw3 "Today" then kw3 else aset kw3 "Today" tz.todayStr
  if memk kw4 "Year" then kw4 else aset kw4 "Year" tz.yearStr

/-- The keyword-resolution segment of `format_and_send_email`
(lines 100-121): derive `firstname` from `name` when absent, merge the
SMTP configuration, reject an address with no `@` (`ValueError`, the
spec's `InvalidAddressError`), look up the time zone (`pytz.timezone`,
raising for an unknown name), then set `Date` unconditionally and
`Today` / `Year` when absent. -/
def resolve_keywords (name dest : String) (keywords smtpinfo : KwMap) (env : Env) :
    Except PyErr KwMap :=
  let kw2 := merge_config (set_firstname keywords name) smtpinfo
  if hasChar dest '@' = false then .error (.invalidAddress name dest)
  else
    match alookup kw2 "timezone" with
    | none => .error (.keyError "timezone")
    | some tzn =>
      match env.tzinfo tzn with
      | none => .error (.unknownTimeZone tzn)
      | some tz => .ok (set_dates kw2 tz)

/-- A call to the transport `send_an_email` (its arguments as handed
over by `format_and_send_email` line 135). -/
structure Msg where
  toaddr : String
  subject : String
  body : String
deriving DecidableEq

/-- Observable result of one `format_and_send_email` call that did not
raise: the duplicate-guard outcome and the transport call, if any. -/
structure FSResult where
  outcome : Outcome
  sent : Option Msg
deriving DecidableEq

/-- `format_and_send_email(text, subject, smtpinfo, keys, flags)` of
`sendemail.py` (lines 70-135).  The duplicate guard runs first
(lines 92-99) and a duplicate returns early with no error; then the
keyword resolution (lines 100-121, `resolve_keywords`, with the
`toaddr` of lines 105-108 computed on the side); with `dontsend` the
subject and body are substituted for validation (lines 122-130, results
discarded; the `pytz.timezone` re-check there cannot fail since
line 116 already succeeded); finally `should_send_now` is consulted —
regardless of `dontsend` — and on `True` the text is substituted again
and `send_an_email` is called (lines 132-135).  The possibly-mutated
global registries are returned even when an exception is raised. -/
def format_and_send_email (text subject : String) (smtpinfo keys : KwMap)
    (flags : Flags) (env : Env) (reg : Registry) :
    Registry × Except PyErr FSResult :=
  let subject := pyStrip subject
  let dontsend := flags.dontsend
  match alookup keys "email" with
  | none => (reg, .error (.keyError "email"))
  | some dest =>
    match alookup keys "name" with
    | none => (reg, .error (.keyError "name"))
    | some name =>
      let step := check_and_register reg dest name
      let reg := step.2
      match step.1 with
      | .duplicateEmail => (reg, .ok ⟨.duplicateEmail, none⟩)
      | .duplicateName => (reg, .ok ⟨.duplicateName, none⟩)
      | .accepted =>
        match resolve_keywords name dest keys smtpinfo env with
        | .error e => (reg, .error e)
        | .ok keywords =>
          let toaddr :=
            if hasChar name '\'' then
              "\"" ++ name ++ "\" <" ++ dest ++ ">\""
            else name ++ " <" ++ dest ++ ">"
          let dryRun : Except PyErr Unit :=
            if dontsend then
              match substitute_text text keywords with
              | .error e => .error e
              | .ok _ =>
                match substitute_text subject keywords with
                | .error e => .error e
                | .ok _ => .ok ()
            else .ok ()
          match dryRun with
          | .error e => (reg, .error e)
          | .ok _ =>
            match should_send_now keywords flags env with
            | .error e => (reg, .error e)
            | .ok ssn =>
              if ssn then
                match substitute_text text keywords with
                | .error e => (reg, .error e)
                | .ok outtext =>
                  match substitute_text subject keywords with
                  | .error e => (reg, .error e)
                  | .ok outsubject =>
                    (reg, .ok ⟨.accepted, some ⟨toaddr, outsubject, outtext⟩⟩)
              else (reg, .ok ⟨.accepted, none⟩)

/-- Observable result of one `send_emails_to_csv_people` call:
whether the `maxagehours` freshness check ran, and the
`format_and_send_email` result. -/
structure ActionResult where
  ageChecked : Bool
  fs : FSResult
deriving DecidableEq

/-- `send_emails_to_csv_people(ourkw, smtpkw, flags)` of `sendemail.py`
(lines 291-307): when the configuration declares `maxagehours`, compare
the template file's age in hours against it (raising `ValueError`, the
spec's `StaleTemplateError`, when older); then read the template and
call `format_and_send_email`.  `age/3600 > int(maxagehours)` is
modelled exactly as `age > 3600 * int(maxagehours)`. -/
def send_emails_to_csv_people (ourkw smtpkw : KwMap) (flags : Flags) (env : Env)
    (reg : Registry) : Registry × Except PyErr ActionResult :=
  match alookup smtpkw "maxagehours" with
  | some mstr =>
    match pyInt mstr with
    | none => (reg, .error (.badIntLiteral mstr))
    | some m =>
      if env.fileAgeSeconds > 3600 * m then
        (reg, .error (.staleTemplate env.fileAgeSeconds))
      else
        let r := format_and_send_email env.templateBody env.templateSubject
          smtpkw ourkw flags env reg
        (r.1, r.2.map (fun fs => ⟨true, fs⟩))
  | none =>
    let r := format_and_send_email env.templateBody env.templateSubject
      smtpkw ourkw flags env reg
    (r.1, r.2.map (fun fs => ⟨false, fs⟩))

/-- `test_emails_to_csv_people(ourkw, smtpkw, flags)` of `sendemail.py`
(lines 309-340): the `--test` action reads the template, forces the
`dontsend` flag and calls `format_and_send_email`; it performs no
freshness check. -/
def test_emails_to_csv_people (ourkw smtpkw : KwMap) (flags : Flags) (env : Env)
    (reg : Registry) : Registry × Except PyErr ActionResult :=
  let r := format_and_send_email env.templateBody env.templateSubject
    smtpkw ourkw { flags with dontsend := true } env reg
  (r.1, r.2.map (fun fs => ⟨false, fs⟩))

/-- Build the per-row keyword dict of `process_csv_file` (lines 287-288):
`csvkw[keywords[j]] = linewords[j]` in column order. -/
def mkRow (header vals : List String) : KwMap :=
  (header.zip vals).foldl (fun m kv => aset m kv.1 kv.2) []

/-- The data-row loop of `process_csv_file` (lines 276-289): a blank (or
whitespace-only, or absent — EOF `readline` yields `''`) line ends the
run; `#` lines are skipped; a row whose comma-split arity differs from
the header's raises `ValueError` (the spec's `RowArityError`); otherwise
the action runs on the zipped row, any exception propagating. -/
def csvLoop (header : List String)
    (action : KwMap → Registry → Registry × Except PyErr ActionResult) :
    List String → Registry → Registry × Except PyErr (List ActionResult)
  | [], reg => (reg, .ok [])
  | line :: rest, reg =>
    let l := pyStrip line
    if l = "" then (reg, .ok [])
    else if startsWithL ['#'] l.data then csvLoop header action rest reg
    else
      let linewords := splitComma l
      if linewords.length ≠ header.length then
        (reg, .error (.rowArity l linewords.length header.length))
      else
        let step := action (mkRow header linewords) reg
        match step.2 with
        | .error e => (step.1, .error e)
        | .ok res =>
          let tail := csvLoop header action rest step.1
          (tail.1, tail.2.map (fun rs => res :: rs))

/-- `process_csv_file(csvfilename, action, smtpkw, flags)` of
`sendemail.py` (lines 269-289), over the file's lines: the first line
(`''` for an empty file) is the comma-split header, the rest feed
`csvLoop`. -/
def process_csv_file (lines : List String)
    (action : KwMap → Registry → Registry × Except PyErr ActionResult)
    (reg : Registry) : Registry × Except PyErr (List ActionResult) :=
  match lines with
  | [] => csvLoop (splitComma (pyStrip "")) action [] reg
  | initline :: rest => csvLoop (splitComma (pyStrip initline)) action rest reg

/-- Fixture: the local-time data of zone `UTC` at the run's instant — a
Monday, 14:00. -/
def utcMonday14 : TzData :=
  ⟨14, 0, "2026-10-12 14:00:00 +0000", "12 October", "2026"⟩

/-- Fixture: a world whose only known zone is `UTC` (see
`utcMonday14`), a fresh template, and the spec's sample template. -/
def envUTC : Env where
  tzinfo := fun s => if s = "UTC" then some utcMonday14 else none
  fileAgeSeconds := 7200
  templateSubject := "Hi @@firstname@@\n"
  templateBody := "Welcome @@name@@!"

/-- Fixture: no flags set. -/
def flagsNone : Flags := ⟨false, false⟩

/-- Fixture: the spec's sample SMTP configuration. -/
def smtpBase : KwMap :=
  [("from", "A <a@x.com>"), ("gateway", "smtp.x.com"), ("login", "a@x.com"),
   ("password", "p"), ("plainbody", "tpl.txt")]

/-- Fixture: the spec's sample recipient row. -/
def bobRow : KwMap :=
  [("email", "bob@y.com"), ("name", "Bob Jones"), ("timezone", "UTC")]

/-- Fixture: the sample SMTP configuration with a 24-hour template
freshness limit. -/
def smtpAged : KwMap := smtpBase ++ [("maxagehours", "24")]

/-! ## Basic association-map lemmas -/

theorem alookup_aset (m : KwMap) (k v x : String) :
    alookup (aset m k v) x = if x = k then some v else alookup m x := by
  induction m with
  | nil => by_cases h : x = k <;> simp [aset, alookup, h, Ne.symm]
  | cons hd tl ih =>
    obtain ⟨k', v'⟩ := hd
    by_cases h1 : k' = k
    · subst h1
      by_cases h2 : x = k' <;> simp [aset, alookup, h2, Ne.symm]
    · by_cases h2 : k' = x <;> by_cases h3 : x = k <;>
        simp_all [aset, alookup, Ne.symm]

theorem memk_false_iff (m : KwMap) (k : String) :
    memk m k = false ↔ alookup m k = none := by
  cases h : alookup m k <;> simp [memk, h]

theorem memk_true_iff (m : KwMap) (k : String) :
    memk m k = true ↔ ∃ v, alookup m k = some v := by
  cases h : alookup m k <;> simp [memk, h]

theorem memk_aset (m : KwMap) (k v x : String) :
    memk (aset m k v) x = true ↔ x = k ∨ memk m x = true := by
  by_cases h : x = k <;> simp [memk, alookup_aset, h]

/-! ## Lemmas about the configuration merge (lines 109-112) -/

theorem merge_config_memk_mono (s : KwMap) :
    ∀ (m : KwMap) (k : String), memk m k = true →
      alookup (merge_config m s) k = alookup m k := by
  induction s with
  | nil => intro m k _; rfl
  | cons hd tl ih =>
    intro m k hk
    obtain ⟨k0, v0⟩ := hd
    simp only [merge_config]
    by_cases hc : (reservedKey k0 || memk m k0) = true
    · rw [if_pos hc]
      exact ih m k hk
    · rw [if_neg hc]
      have hk0 : memk m k0 = false := by
        cases h : memk m k0
        · rfl
        · simp [h] at hc
      have hne : k ≠ k0 := by
        intro h; rw [h] at hk; rw [hk] at hk0; cases hk0
      have hl : alookup (aset m k0 v0) k = alookup m k := by
        rw [alookup_aset]; simp [hne]
      have hm : memk (aset m k0 v0) k = true := by
        rw [memk_aset]; right; exact hk
      rw [ih _ k hm, hl]

theorem merge_config_copies (s : KwMap) :
    ∀ (m : KwMap) (k : String), memk m k = false → reservedKey k = false →
      alookup (merge_config m s) k = alookup s k := by
  induction s with
  | nil =>
    intro m k hk _
    simpa [merge_config, alookup] using (memk_false_iff m k).mp hk
  | cons hd tl ih =>
    intro m k hk hres
    obtain ⟨k0, v0⟩ := hd
    simp only [merge_config]
    by_cases he : k0 = k
    · subst he
      have hcond : ¬ ((reservedKey k0 || memk m k0) = true) := by simp [hres, hk]
      rw [if_neg hcond]
      have hmem : memk (aset m k0 v0) k0 = true := by
        rw [memk_aset]; left; rfl
      rw [merge_config_memk_mono tl _ _ hmem, alookup_aset]
      simp [alookup]
    · have halt : alookup ((k0, v0) :: tl) k = alookup tl k := by
        simp [alookup, he]
      by_cases hc : (reservedKey k0 || memk m k0) = true
      · rw [if_pos hc]
        rw [ih m k hk hres, halt]
      · rw [if_neg hc]
        have hk' : memk (aset m k0 v0) k = false := by
          cases hmt : memk (aset m k0 v0) k
          · rfl
          · rcases (memk_aset m k0 v0 k).mp hmt with h | h
            · exact absurd h (Ne.symm he)
            · rw [h] at hk; cases hk
        rw [ih _ k hk' hres, halt]

theorem merge_config_reserved (s : KwMap) :
    ∀ (m : KwMap) (k : String), reservedKey k = true →
      alookup (merge_config m s) k = alookup m k := by
  induction s with
  | nil => intro m k _; rfl
  | cons hd tl ih =>
    intro m k hres
    obtain ⟨k0, v0⟩ := hd
    simp only [merge_config]
    by_cases he : k0 = k
    · subst he
      have hcond : (reservedKey k0 || memk m k0) = true := by simp [hres]
      rw [if_pos hcond]
      exact ih m k0 hres
    · by_cases hc : (reservedKey k0 || memk m k0) = true
      · rw [if_pos hc]
        exact ih m k hres
      · rw [if_neg hc]
        rw [ih _ k hres, alookup_aset]
        have : k ≠ k0 := Ne.symm he
        simp [this]

/-! ## Lemmas about the substitution loop (lines 185-190) -/

theorem substLoop_ok_iff (kws : List String) :
    ∀ (keys : KwMap) (out : String),
      (∃ r, substLoop keys kws out = .ok r) ↔ ∀ kw ∈ kws, memk keys kw = true := by
  induction kws with
  | nil => intro keys out; simp [substLoop]
  | cons kw rest ih =>
    intro keys out
    simp only [substLoop]
    cases h : alookup keys kw with
    | none => simp [memk, h]
    | some v => simp [memk, h, ih keys]

theorem substLoop_error_shape (kws : List String) :
    ∀ (keys : KwMap) (out : String) (e : PyErr),
      substLoop keys kws out = .error e →
      ∃ kw, e = .undefinedKeyword kw ∧ kw ∈ kws ∧ memk keys kw = false := by
  induction kws with
  | nil => intro keys out e h; cases h
  | cons kw rest ih =>
    intro keys out e h
    simp only [substLoop] at h
    cases ha : alookup keys kw with
    | none =>
      rw [ha] at h
      cases h
      exact ⟨kw, rfl, List.mem_cons_self kw rest, by simp [memk, ha]⟩
    | some v =>
      rw [ha] at h
      obtain ⟨kw', he, hm, hk⟩ := ih keys _ e h
      exact ⟨kw', he, List.mem_cons_of_mem kw hm, hk⟩

/-! ## Lemmas about the weekday search loop (lines 167-171) -/

theorem weekdayIndexLoop_none_iff (l : List String) :
    ∀ (s : String) (i0 : Nat), weekdayIndexLoop s l i0 = none ↔ s ∉ l := by
  induction l with
  | nil => intro s i0; simp [weekdayIndexLoop]
  | cons w rest ih =>
    intro s i0
    by_cases h : s = w
    · simp [weekdayIndexLoop, h]
    · simp [weekdayIndexLoop, h, ih s (i0 + 1)]

theorem weekdayIndexLoop_ge (l : List String) :
    ∀ (s : String) (i0 i : Nat), weekdayIndexLoop s l i0 = some i → i0 ≤ i := by
  induction l with
  | nil => intro s i0 i h; cases h
  | cons w rest ih =>
    intro s i0 i h
    simp only [weekdayIndexLoop] at h
    by_cases hs : s = w
    · rw [if_pos hs] at h; cases h; exact Nat.le_refl _
    · rw [if_neg hs] at h
      exact Nat.le_of_succ_le (ih s (i0 + 1) i h)

theorem weekdayIndexLoop_get (l : List String) :
    ∀ (s : String) (i0 i : Nat), weekdayIndexLoop s l i0 = some i →
      l.get? (i - i0) = some s := by
  induction l with
  | nil => intro s i0 i h; cases h
  | cons w rest ih =>
    intro s i0 i h
    simp only [weekdayIndexLoop] at h
    by_cases hs : s = w
    · rw [if_pos hs] at h
      cases h
      simp [hs]
    · rw [if_neg hs] at h
      have hge := weekdayIndexLoop_ge rest s (i0 + 1) i h
      have hrest := ih s (i0 + 1) i h
      have harith : i - i0 = (i - (i0 + 1)) + 1 := by omega
      rw [harith]
      simpa using hrest

/-! ## The duplicate-guard sequence lemma -/

theorem guard_map_accepted (seq : List (String × String)) :
    ∀ (reg : Registry) (es ns : List String),
      (∀ k, memk reg.allemails k = true ↔ k ∈ es) →
      (∀ k, memk reg.allnames k = true ↔ k ∈ ns) →
      (runGuard reg seq).2.map (fun o => o == Outcome.accepted) =
        amendedAccepted es ns seq := by
  induction seq with
  | nil => intro reg es ns _ _; simp [runGuard, amendedAccepted]
  | cons p rest ih =>
    intro reg es ns he hn
    obtain ⟨e, n⟩ := p
    simp only [runGuard, amendedAccepted, check_and_register]
    by_cases h1 : memk reg.allemails (pyLower e) = true
    · have hmem : pyLower e ∈ es := (he _).mp h1
      rw [if_pos h1, if_pos hmem]
      simpa using ih reg es ns he hn
    · have hnmem : pyLower e ∉ es := fun hc => h1 ((he _).mpr hc)
      rw [if_neg h1, if_neg hnmem]
      by_cases h2 : memk reg.allnames (pyLower n) = true
      · have hm2 : pyLower n ∈ ns := (hn _).mp h2
        rw [if_pos h2, if_pos hm2]
        have he' : ∀ k,
            memk (aset reg.allemails (pyLower e) (pyLower n)) k = true ↔
              k ∈ pyLower e :: es := by
          intro k
          rw [memk_aset]
          simp [he k]
        simpa using
          ih { reg with allemails := aset reg.allemails (pyLower e) (pyLower n) }
            (pyLower e :: es) ns he' hn
      · have hm2 : pyLower n ∉ ns := fun hc => h2 ((hn _).mpr hc)
        rw [if_neg h2, if_neg hm2]
        have he' : ∀ k,
            memk (aset reg.allemails (pyLower e) (pyLower n)) k = true ↔
              k ∈ pyLower e :: es := by
          intro k
          rw [memk_aset]
          simp [he k]
        have hn' : ∀ k,
            memk (aset reg.allnames (pyLower n) (pyLower e)) k = true ↔
              k ∈ pyLower n :: ns := by
          intro k
          rw [memk_aset]
          simp [hn k]
        simpa using
          ih ⟨aset reg.allemails (pyLower e) (pyLower n),
              aset reg.allnames (pyLower n) (pyLower e)⟩
            (pyLower e :: es) (pyLower n :: ns) he' hn'


/-! ## Claim C1 — Duplicate Guard sequence contract -/

/-- C1, counterexample.  The claim "the N-th pair is Accepted iff neither
its lower-cased email nor its lower-cased name appeared in any earlier
Accepted pair; a rejected pair leaves the registry unchanged" is false:
in the sequence `(a@x,Bob), (b@x,Bob), (b@x,Carol)` the second pair is
rejected (duplicate name) yet records its email, so the third pair —
whose email and name appeared in no earlier *Accepted* pair — is
rejected, while the claim's own predicate (`specAccepted`) accepts it;
and the second pair's rejection visibly changes the registry. -/
theorem duplicate_guard_claim_cex :
    (runGuard emptyRegistry [("a@x", "Bob"), ("b@x", "Bob"), ("b@x", "Carol")]).2 =
      [.accepted, .duplicateName, .duplicateEmail]
    ∧ specAccepted [] [] [("a@x", "Bob"), ("b@x", "Bob"), ("b@x", "Carol")] =
      [true, false, true]
    ∧ (check_and_register ⟨[("a@x", "bob")], [("bob", "a@x")]⟩ "b@x" "Bob").1 =
        .duplicateName
    ∧ (check_and_register ⟨[("a@x", "bob")], [("bob", "a@x")]⟩ "b@x" "Bob").2 ≠
        ⟨[("a@x", "bob")], [("bob", "a@x")]⟩ := by
  decide

/-- C1, amended.  For any sequence of (email, name) pairs processed in
one run, the N-th pair is Accepted iff its lower-cased email was not
recorded by an earlier pair that passed the email check (an Accepted
*or* name-rejected pair) and its lower-cased name was not recorded by an
earlier Accepted pair (`amendedAccepted`); an email-duplicate rejection
leaves the registry unchanged, a name-duplicate rejection still records
the pair's email, and an Accepted pair records both its email and its
name. -/
theorem duplicate_guard_amended :
    (∀ seq : List (String × String),
        (runGuard emptyRegistry seq).2.map (fun o => o == Outcome.accepted) =
          amendedAccepted [] [] seq)
    ∧ (∀ (reg : Registry) (e n : String),
          ((check_and_register reg e n).1 = .duplicateEmail →
            (check_and_register reg e n).2 = reg)
        ∧ ((check_and_register reg e n).1 = .duplicateName →
            (check_and_register reg e n).2 =
              { reg with allemails := aset reg.allemails (pyLower e) (pyLower n) })
        ∧ ((check_and_register reg e n).1 = .accepted →
            (check_and_register reg e n).2 =
              ⟨aset reg.allemails (pyLower e) (pyLower n),
               aset reg.allnames (pyLower n) (pyLower e)⟩)) := by
  constructor
  · intro seq
    exact guard_map_accepted seq emptyRegistry [] []
      (fun k => by simp [emptyRegistry, memk, alookup])
      (fun k => by simp [emptyRegistry, memk, alookup])
  · intro reg e n
    by_cases h1 : memk reg.allemails (pyLower e) = true
    · refine ⟨fun _ => ?_, fun hc => ?_, fun hc => ?_⟩
      · simp [check_and_register, h1]
      · simp [check_and_register, h1] at hc
      · simp [check_and_register, h1] at hc
    · by_cases h2 : memk reg.allnames (pyLower n) = true
      · refine ⟨fun hc => ?_, fun _ => ?_, fun hc => ?_⟩
        · simp [check_and_register, h1, h2] at hc
        · simp [check_and_register, h1, h2]
        · simp [check_and_register, h1, h2] at hc
      · refine ⟨fun hc => ?_, fun hc => ?_, fun _ => ?_⟩
        · simp [check_and_register, h1, h2] at hc
        · simp [check_and_register, h1, h2] at hc
        · simp [check_and_register, h1, h2]

/-- C1, witness: the amended theorem applied at concrete inputs — a
two-pair sequence with a case-folded duplicate email, and one concrete
email-duplicate step whose registry is untouched. -/
theorem duplicate_guard_amended_witness :
    (runGuard emptyRegistry [("a@x", "Bob"), ("A@X", "Ann")]).2.map
        (fun o => o == Outcome.accepted) =
      amendedAccepted [] [] [("a@x", "Bob"), ("A@X", "Ann")]
    ∧ (check_and_register ⟨[("a@x", "bob")], [("bob", "a@x")]⟩ "A@X" "Zed").2 =
        ⟨[("a@x", "bob")], [("bob", "a@x")]⟩ := by
  exact ⟨duplicate_guard_amended.1 [("a@x", "Bob"), ("A@X", "Ann")],
    (duplicate_guard_amended.2 ⟨[("a@x", "bob")], [("bob", "a@x")]⟩ "A@X" "Zed").1
      (by decide)⟩

/-! ## Claim C2 — dry-validation mode must not invoke the transport -/

/-- C2, code bug.  The claim (and the `dontsend` flag's own name, and the
docstring of `test_emails_to_csv_people`) says the transport is never
invoked in dry-validation mode, but `format_and_send_email` line 132
consults `should_send_now` unconditionally after the `dontsend` block
and calls `send_an_email` whenever it answers true: at a concrete
recipient with no `sendhour` configured, the `--test` action's result
records an actual transport call (`sent = some …`). -/
theorem dry_mode_still_sends :
    test_emails_to_csv_people bobRow smtpBase flagsNone envUTC emptyRegistry =
      (⟨[("bob@y.com", "bob jones")], [("bob jones", "bob@y.com")]⟩,
       .ok ⟨false, ⟨.accepted,
         some ⟨"Bob Jones <bob@y.com>", "Hi Bob", "Welcome Bob Jones!"⟩⟩⟩) := by
  decide

/-! ## Claim C3 — per-recipient errors and the batch -/

/-- C3, counterexample.  The claim "if processing one recipient raises
`InvalidAddressError` … every remaining recipient in the table is still
processed" is false: with recipient 1 = `bobnoat,Bob,UTC` (no `@`) and
recipient 2 = `c@y.com,Carol,UTC`, the run propagates the `ValueError`
(no handler in `process_csv_file`), so it ends in an error and no result
list — recipient 2 is never processed. -/
theorem per_recipient_error_fatal_cex :
    process_csv_file ["email,name,timezone", "bobnoat,Bob,UTC", "c@y.com,Carol,UTC"]
        (fun row reg => send_emails_to_csv_people row smtpBase flagsNone envUTC reg)
        emptyRegistry =
      (⟨[("bobnoat", "bob")], [("bob", "bobnoat")]⟩,
       .error (.invalidAddress "Bob" "bobnoat"))
    ∧ ¬ ∃ rs, (process_csv_file
        ["email,name,timezone", "bobnoat,Bob,UTC", "c@y.com,Carol,UTC"]
        (fun row reg => send_emails_to_csv_people row smtpBase flagsNone envUTC reg)
        emptyRegistry).2 = .ok rs := by
  refine ⟨by decide, ?_⟩
  rintro ⟨rs, h⟩
  rw [show (process_csv_file
      ["email,name,timezone", "bobnoat,Bob,UTC", "c@y.com,Carol,UTC"]
      (fun row reg => send_emails_to_csv_people row smtpBase flagsNone envUTC reg)
      emptyRegistry).2 = .error (.invalidAddress "Bob" "bobnoat") from by decide] at h
  cases h

/-- C3, amended.  Only duplicate detection is non-fatal: a recipient
row rejected by the Duplicate Guard — for a duplicate email *or* a
duplicate name, whether or not the configuration declares `maxagehours`
(provided the template is fresh, else the stale check aborts first) —
is skipped with its duplicate outcome and every remaining row is still
processed, continuing from the registry the guard left (the run's
result is the remaining rows' result with the duplicate outcome
prepended); whereas if the action for a row raises
(`InvalidAddressError`, `UnknownTimezoneError`, `TemplateBindingError`,
…), the run stops with that error and no later row is processed. -/
theorem per_recipient_errors_amended :
    (∀ (header : List String) (smtpkw : KwMap) (flags : Flags) (env : Env)
        (l1 : String) (rest : List String) (reg : Registry) (em nm : String)
        (o : Outcome),
      pyStrip l1 ≠ "" →
      startsWithL ['#'] (pyStrip l1).data = false →
      (splitComma (pyStrip l1)).length = header.length →
      alookup (mkRow header (splitComma (pyStrip l1))) "email" = some em →
      alookup (mkRow header (splitComma (pyStrip l1))) "name" = some nm →
      (∀ mstr, alookup smtpkw "maxagehours" = some mstr →
        ∃ m, pyInt mstr = some m ∧ ¬ (env.fileAgeSeconds > 3600 * m)) →
      (check_and_register reg em nm).1 = o →
      o = .duplicateEmail ∨ o = .duplicateName →
        csvLoop header
            (fun row r => send_emails_to_csv_people row smtpkw flags env r)
            (l1 :: rest) reg =
          ((csvLoop header
              (fun row r => send_emails_to_csv_people row smtpkw flags env r)
              rest (check_and_register reg em nm).2).1,
           (csvLoop header
              (fun row r => send_emails_to_csv_people row smtpkw flags env r)
              rest (check_and_register reg em nm).2).2.map
             (fun rs => ⟨memk smtpkw "maxagehours", ⟨o, none⟩⟩ :: rs)))
    ∧ (∀ (header : List String)
        (action : KwMap → Registry → Registry × Except PyErr ActionResult)
        (l1 : String) (rest : List String) (reg reg' : Registry) (e : PyErr),
      pyStrip l1 ≠ "" →
      startsWithL ['#'] (pyStrip l1).data = false →
      (splitComma (pyStrip l1)).length = header.length →
      action (mkRow header (splitComma (pyStrip l1))) reg = (reg', .error e) →
        csvLoop header action (l1 :: rest) reg = (reg', .error e)) := by
  constructor
  · intro header smtpkw flags env l1 rest reg em nm o hne hcm har hem hnm
      hfresh ho hdup
    have hfmt : format_and_send_email env.templateBody env.templateSubject
        smtpkw (mkRow header (splitComma (pyStrip l1))) flags env reg =
        ((check_and_register reg em nm).2, .ok ⟨o, none⟩) := by
      rcases hdup with rfl | rfl
      · simp only [format_and_send_email, hem, hnm, ho]
      · simp only [format_and_send_email, hem, hnm, ho]
    have hact : send_emails_to_csv_people
        (mkRow header (splitComma (pyStrip l1))) smtpkw flags env reg =
        ((check_and_register reg em nm).2,
         .ok ⟨memk smtpkw "maxagehours", ⟨o, none⟩⟩) := by
      cases hmax : alookup smtpkw "maxagehours" with
      | none =>
        simp only [send_emails_to_csv_people, hmax, hfmt]
        simp [memk, hmax, Except.map]
      | some mstr =>
        obtain ⟨m, hpi, hnst⟩ := hfresh mstr hmax
        simp only [send_emails_to_csv_people, hmax, hpi]
        rw [if_neg hnst]
        simp only [hfmt]
        simp [memk, hmax, Except.map]
    simp only [csvLoop]
    rw [if_neg hne, if_neg (by simp [hcm]), if_neg (by simp [har])]
    simp only [hact]
  · intro header action l1 rest reg reg' e hne hcm har hact
    simp only [csvLoop]
    rw [if_neg hne, if_neg (by simp [hcm]), if_neg (by simp [har]), hact]

/-- C3, witness: the amended theorem at concrete inputs — an
email-duplicate row under a configuration *with* a fresh `maxagehours`
(the later row is still processed), a name-duplicate row with a
different email (skipped after recording its email, the later row still
processed), and an invalid-address row aborting the run. -/
theorem per_recipient_errors_amended_witness :
    csvLoop ["email", "name", "timezone"]
        (fun row r => send_emails_to_csv_people row smtpAged flagsNone envUTC r)
        ["bob@y.com,Bob Jones,UTC", "c@y.com,Carol Smith,UTC"]
        ⟨[("bob@y.com", "bob jones")], [("bob jones", "bob@y.com")]⟩ =
      ((csvLoop ["email", "name", "timezone"]
          (fun row r => send_emails_to_csv_people row smtpAged flagsNone envUTC r)
          ["c@y.com,Carol Smith,UTC"]
          ⟨[("bob@y.com", "bob jones")], [("bob jones", "bob@y.com")]⟩).1,
       (csvLoop ["email", "name", "timezone"]
          (fun row r => send_emails_to_csv_people row smtpAged flagsNone envUTC r)
          ["c@y.com,Carol Smith,UTC"]
          ⟨[("bob@y.com", "bob jones")], [("bob jones", "bob@y.com")]⟩).2.map
         (fun rs => ⟨true, ⟨.duplicateEmail, none⟩⟩ :: rs))
    ∧ csvLoop ["email", "name", "timezone"]
        (fun row r => send_emails_to_csv_people row smtpBase flagsNone envUTC r)
        ["new@y.com,Bob Jones,UTC", "c@y.com,Carol Smith,UTC"]
        ⟨[("bob@y.com", "bob jones")], [("bob jones", "bob@y.com")]⟩ =
      ((csvLoop ["email", "name", "timezone"]
          (fun row r => send_emails_to_csv_people row smtpBase flagsNone envUTC r)
          ["c@y.com,Carol Smith,UTC"]
          ⟨[("bob@y.com", "bob jones"), ("new@y.com", "bob jones")],
           [("bob jones", "bob@y.com")]⟩).1,
       (csvLoop ["email", "name", "timezone"]
          (fun row r => send_emails_to_csv_people row smtpBase flagsNone envUTC r)
          ["c@y.com,Carol Smith,UTC"]
          ⟨[("bob@y.com", "bob jones"), ("new@y.com", "bob jones")],
           [("bob jones", "bob@y.com")]⟩).2.map
         (fun rs => ⟨false, ⟨.duplicateName, none⟩⟩ :: rs))
    ∧ csvLoop ["email", "name", "timezone"]
        (fun row r => send_emails_to_csv_people row smtpBase flagsNone envUTC r)
        ["bobnoat,Bob,UTC", "c@y.com,Carol,UTC"] emptyRegistry =
      (⟨[("bobnoat", "bob")], [("bob", "bobnoat")]⟩,
       .error (.invalidAddress "Bob" "bobnoat")) := by
  refine ⟨?_, ?_, ?_⟩
  · have H := per_recipient_errors_amended.1 ["email", "name", "timezone"]
      smtpAged flagsNone envUTC "bob@y.com,Bob Jones,UTC"
      ["c@y.com,Carol Smith,UTC"]
      ⟨[("bob@y.com", "bob jones")], [("bob jones", "bob@y.com")]⟩
      "bob@y.com" "Bob Jones" .duplicateEmail (by decide) (by decide) (by decide)
      (by decide) (by decide)
      (by
        intro mstr h
        rw [show alookup smtpAged "maxagehours" = some "24" from by decide] at h
        injection h with h'
        subst h'
        exact ⟨24, by decide, by decide⟩)
      (by decide) (Or.inl rfl)
    exact H.trans (by decide)
  · have H := per_recipient_errors_amended.1 ["email", "name", "timezone"]
      smtpBase flagsNone envUTC "new@y.com,Bob Jones,UTC"
      ["c@y.com,Carol Smith,UTC"]
      ⟨[("bob@y.com", "bob jones")], [("bob jones", "bob@y.com")]⟩
      "new@y.com" "Bob Jones" .duplicateName (by decide) (by decide) (by decide)
      (by decide) (by decide)
      (by
        intro mstr h
        rw [show alookup smtpBase "maxagehours" = none from by decide] at h
        exact Option.noConfusion h)
      (by decide) (Or.inr rfl)
    exact H.trans (by decide)
  · exact per_recipient_errors_amended.2 ["email", "name", "timezone"]
      (fun row r => send_emails_to_csv_people row smtpBase flagsNone envUTC r)
      "bobnoat,Bob,UTC" ["c@y.com,Carol,UTC"] emptyRegistry
      ⟨[("bobnoat", "bob")], [("bob", "bobnoat")]⟩
      (.invalidAddress "Bob" "bobnoat") (by decide) (by decide) (by decide)
      (by decide)

/-! ## Claim C4 — substitution binding contract -/

/-- C4, counterexample.  The half of the claim "when `K` binds every
placeholder discovered in `T`, the result contains no remaining
`@@...@@` pattern" is false: for `T = "@@a@@"` and
`K = {a ↦ "@@b@@"}`, every discovered placeholder (just `a`) is bound,
substitution succeeds, and the result `"@@b@@"` still contains the
pattern `@@b@@` (a replacement value can introduce one; so can
delimiter runs left in the text, e.g.
`substitute("@@@@a@@@@", {a ↦ "x"}) = "@@x@@"`). -/
theorem substitute_leftover_pattern_cex :
    (∀ kw ∈ find_keywords "@@a@@", memk [("a", "@@b@@")] kw = true)
    ∧ substitute_text "@@a@@" [("a", "@@b@@")] = .ok "@@b@@"
    ∧ find_keywords "@@b@@" = ["b"]
    ∧ substitute_text "@@@@a@@@@" [("a", "x")] = .ok "@@x@@"
    ∧ find_keywords "@@x@@" ≠ [] := by
  decide

/-- C4, amended.  `substitute_text` fails (with the `ValueError` that is
the spec's `TemplateBindingError`, naming an unbound discovered
placeholder) iff at least one placeholder discovered in the text is
absent from the keyword mapping — equivalently it succeeds iff every
discovered placeholder is bound, including the empty-mapping case; but
the successful result may still contain `@@...@@` patterns (introduced
by replacement values or by delimiter runs adjacent to replaced text). -/
theorem substitute_binding_amended (text : String) (keys : KwMap) :
    ((∃ r, substitute_text text keys = .ok r) ↔
      ∀ kw ∈ find_keywords text, memk keys kw = true)
    ∧ (∀ e, substitute_text text keys = .error e →
        ∃ kw, e = .undefinedKeyword kw ∧ kw ∈ find_keywords text ∧
          memk keys kw = false) := by
  exact ⟨substLoop_ok_iff (find_keywords text) keys text,
    fun e h => substLoop_error_shape (find_keywords text) keys text e h⟩

/-- C4, witness: the amended theorem at concrete inputs — a fully bound
template succeeds, and an empty mapping with a non-empty placeholder set
fails with the binding error. -/
theorem substitute_binding_amended_witness :
    (∃ r, substitute_text "Hi @@firstname@@" [("firstname", "Bob")] = .ok r)
    ∧ ∃ kw, (PyErr.undefinedKeyword "name") = .undefinedKeyword kw ∧
        kw ∈ find_keywords "Welcome @@name@@!" ∧ memk [] kw = false := by
  constructor
  · exact (substitute_binding_amended "Hi @@firstname@@" [("firstname", "Bob")]).1.mpr
      (by decide)
  · exact (substitute_binding_amended "Welcome @@name@@!" []).2
      (.undefinedKeyword "name") (by decide)

/-! ## Claim C5 — substitution order-independence / single pass -/

/-- C5, counterexample.  The claim "the result does not depend on the
order in which distinct placeholders are replaced, and no placeholder's
replacement value is itself re-scanned" is false: for
`T = "@@a@@ @@b@@"` and `K = {a ↦ "@@b@@", b ↦ "x"}` the loop in
discovery order `[a, b]` yields `"x x"` while the order `[b, a]` yields
`"@@b@@ x"`, and the code's own result `"x x"` shows `a`'s replacement
value `@@b@@` was re-scanned and expanded by the later replacement
(a single pass would leave `"@@b@@ x"`). -/
theorem substitute_order_dependent_cex :
    substLoop [("a", "@@b@@"), ("b", "x")] ["a", "b"] "@@a@@ @@b@@" ≠
      substLoop [("a", "@@b@@"), ("b", "x")] ["b", "a"] "@@a@@ @@b@@"
    ∧ find_keywords "@@a@@ @@b@@" = ["a", "b"]
    ∧ substitute_text "@@a@@ @@b@@" [("a", "@@b@@"), ("b", "x")] = .ok "x x"
    ∧ substitute_text "@@a@@ @@b@@" [("a", "@@b@@"), ("b", "x")] ≠ .ok "@@b@@ x" := by
  decide

/-- C5, amended.  Substitution is sequential in discovery order
(`substitute_text = substLoop` over `find_keywords`), and that order
matters: there is a text with distinct, fully bound placeholders and a
permutation of their discovery order on which the loop's result differs,
because a replacement value containing `@@name@@` for a
later-discovered bound placeholder is itself substituted by the later
replacement (values are re-scanned, not single-pass). -/
theorem substitute_sequential_amended :
    ∃ (t : String) (keys : KwMap) (o1 o2 : List String),
      o1 = find_keywords t ∧ o1.Nodup ∧ o2.Perm o1 ∧
      (∀ kw ∈ o1, memk keys kw = true) ∧
      substLoop keys o1 t ≠ substLoop keys o2 t ∧
      substitute_text t keys = substLoop keys o1 t ∧
      alookup keys "a" = some "@@b@@" ∧
      substitute_text t keys = .ok "x x" := by
  refine ⟨"@@a@@ @@b@@", [("a", "@@b@@"), ("b", "x")], ["a", "b"], ["b", "a"],
    by decide, by decide, by decide, by decide, by decide, by decide, by decide,
    by decide⟩

/-! ## Claim C6 — scheduler contract -/

/-- C6.  For every keyword mapping and every run instant: with no
`sendhour`, `should_send_now` is true; with `sendhour` (given the
recipient's zone resolves and `sendhour` parses), the answer is false
unless the recipient-zone hour equals `int(sendhour)`; when the hour
matches, absence of `sendday` yields true, and with `sendday` present
the call fails with the illegal-send-day error exactly when the
(lower-cased) name is not one of the seven weekday names, and otherwise
returns true exactly when the recipient-zone weekday equals the named
day's index (`WEEKDAYS.get? i = some (pyLower sendday)`). -/
theorem scheduler_contract (keywords : KwMap) (flags : Flags) (env : Env) :
    (alookup keywords "sendhour" = none →
      should_send_now keywords flags env = .ok true)
    ∧ (∀ (sh tzn : String) (tz : TzData) (shn : Int),
        alookup keywords "sendhour" = some sh →
        alookup keywords "timezone" = some tzn →
        env.tzinfo tzn = some tz →
        pyInt sh = some shn →
          ((tz.hour : Int) ≠ shn →
            should_send_now keywords flags env = .ok false)
        ∧ ((tz.hour : Int) = shn →
            (alookup keywords "sendday" = none →
              should_send_now keywords flags env = .ok true)
          ∧ (∀ sd, alookup keywords "sendday" = some sd →
              ((should_send_now keywords flags env =
                  .error (.illegalSendDay sd)) ↔ pyLower sd ∉ WEEKDAYS)
            ∧ (∀ i, weekdayIndexLoop (pyLower sd) WEEKDAYS 0 = some i →
                WEEKDAYS.get? i = some (pyLower sd)
              ∧ (should_send_now keywords flags env = .ok true ↔
                  tz.weekday = i))))) := by
  constructor
  · intro h
    simp [should_send_now, h]
  · intro sh tzn tz shn hsh htzn htz hint
    constructor
    · intro hne
      simp only [should_send_now, hsh, htzn, htz, hint]
      rw [if_pos hne]
    · intro heq
      constructor
      · intro hsd
        simp only [should_send_now, hsh, htzn, htz, hint]
        rw [if_neg (not_not_intro heq), hsd]
      · intro sd hsd
        constructor
        · simp only [should_send_now, hsh, htzn, htz, hint]
          rw [if_neg (not_not_intro heq), hsd]
          cases hw : weekdayIndexLoop (pyLower sd) WEEKDAYS 0 with
          | none =>
            simp [hw, (weekdayIndexLoop_none_iff WEEKDAYS (pyLower sd) 0).mp hw]
          | some i =>
            have hget := weekdayIndexLoop_get WEEKDAYS (pyLower sd) 0 i hw
            have hmem : pyLower sd ∈ WEEKDAYS := by
              have : WEEKDAYS.get? i = some (pyLower sd) := by simpa using hget
              exact List.get?_mem this
            exact iff_of_false (by simp [hw]) (by simp [hmem])
        · intro i hw
          constructor
          · simpa using weekdayIndexLoop_get WEEKDAYS (pyLower sd) 0 i hw
          · simp only [should_send_now, hsh, htzn, htz, hint]
            rw [if_neg (not_not_intro heq)]
            simp only [hsd, hw, Except.ok.injEq, beq_iff_eq]
            exact eq_comm

/-- C6, witness: all four behaviors of the scheduler at concrete
inputs and the run instant of `envUTC` (UTC, Monday, 14:00). -/
theorem scheduler_contract_witness :
    should_send_now [("timezone", "UTC")] flagsNone envUTC = .ok true
    ∧ should_send_now [("timezone", "UTC"), ("sendhour", "15")] flagsNone envUTC =
        .ok false
    ∧ should_send_now [("timezone", "UTC"), ("sendhour", "14")] flagsNone envUTC =
        .ok true
    ∧ (should_send_now
        [("timezone", "UTC"), ("sendhour", "14"), ("sendday", "Monday")]
        flagsNone envUTC = .ok true ↔ utcMonday14.weekday = 0)
    ∧ should_send_now
        [("timezone", "UTC"), ("sendhour", "14"), ("sendday", "Funday")]
        flagsNone envUTC = .error (.illegalSendDay "Funday") := by
  refine ⟨?_, ?_, ?_, ?_, ?_⟩
  · exact (scheduler_contract [("timezone", "UTC")] flagsNone envUTC).1 (by decide)
  · exact (((scheduler_contract [("timezone", "UTC"), ("sendhour", "15")]
      flagsNone envUTC).2 "15" "UTC" utcMonday14 15 (by decide) (by decide)
      (by decide) (by decide)).1 (by decide))
  · exact ((((scheduler_contract [("timezone", "UTC"), ("sendhour", "14")]
      flagsNone envUTC).2 "14" "UTC" utcMonday14 14 (by decide) (by decide)
      (by decide) (by decide)).2 (by decide)).1 (by decide))
  · exact (((((scheduler_contract
      [("timezone", "UTC"), ("sendhour", "14"), ("sendday", "Monday")]
      flagsNone envUTC).2 "14" "UTC" utcMonday14 14 (by decide) (by decide)
      (by decide) (by decide)).2 (by decide)).2 "Monday" (by decide)).2 0
      (by decide)).2
  · exact ((((((scheduler_contract
      [("timezone", "UTC"), ("sendhour", "14"), ("sendday", "Funday")]
      flagsNone envUTC).2 "14" "UTC" utcMonday14 14 (by decide) (by decide)
      (by decide) (by decide)).2 (by decide)).2 "Funday" (by decide)).1).mpr
      (by decide))

/-! ## Claim C7 — keyword-resolver contract -/

theorem set_firstname_memk (keys : KwMap) (name k : String)
    (hk : memk keys k = true) :
    alookup (set_firstname keys name) k = alookup keys k := by
  unfold set_firstname
  by_cases h : memk keys "firstname" = true
  · rw [if_pos h]
  · rw [if_neg h, alookup_aset]
    have hne : k ≠ "firstname" := by
      intro he; rw [he] at hk; rw [hk] at h; exact h rfl
    rw [if_neg hne]

theorem set_firstname_other (keys : KwMap) (name k : String)
    (hne : k ≠ "firstname") :
    alookup (set_firstname keys name) k = alookup keys k := by
  unfold set_firstname
  by_cases h : memk keys "firstname" = true
  · rw [if_pos h]
  · rw [if_neg h, alookup_aset, if_neg hne]

theorem set_firstname_absent (keys : KwMap) (name : String)
    (h : memk keys "firstname" = false) :
    alookup (set_firstname keys name) "firstname" = some (firstTok name) := by
  unfold set_firstname
  rw [if_neg (by simp [h]), alookup_aset, if_pos rfl]

theorem set_dates_other (keys : KwMap) (tz : TzData) (k : String)
    (h1 : k ≠ "Date") (h2 : k ≠ "Today") (h3 : k ≠ "Year") :
    alookup (set_dates keys tz) k = alookup keys k := by
  simp [set_dates, apply_ite (fun m => alookup m k), alookup_aset, h1, h2, h3]

theorem set_dates_date (keys : KwMap) (tz : TzData) :
    alookup (set_dates keys tz) "Date" = some tz.dateStr := by
  simp [set_dates, apply_ite (fun m => alookup m "Date"), alookup_aset,
    show ("Date" : String) ≠ "Today" from by decide,
    show ("Date" : String) ≠ "Year" from by decide]

theorem set_dates_today_mem (keys : KwMap) (tz : TzData)
    (h : memk keys "Today" = true) :
    alookup (set_dates keys tz) "Today" = alookup keys "Today" := by
  simp [set_dates, apply_ite (fun m => alookup m "Today"),
    apply_ite (fun m => memk m "Today"), alookup_aset, memk_aset, h,
    show ("Today" : String) ≠ "Date" from by decide,
    show ("Today" : String) ≠ "Year" from by decide]

theorem set_dates_today_absent (keys : KwMap) (tz : TzData)
    (h : memk keys "Today" = false) :
    alookup (set_dates keys tz) "Today" = some tz.todayStr := by
  simp [set_dates, apply_ite (fun m => alookup m "Today"),
    apply_ite (fun m => memk m "Today"), alookup_aset, memk_aset, h,
    show ("Today" : String) ≠ "Date" from by decide,
    show ("Today" : String) ≠ "Year" from by decide]

theorem set_dates_year_mem (keys : KwMap) (tz : TzData)
    (h : memk keys "Year" = true) :
    alookup (set_dates keys tz) "Year" = alookup keys "Year" := by
  simp [set_dates, apply_ite (fun m => alookup m "Year"),
    apply_ite (fun m => memk m "Year"), alookup_aset, memk_aset, h,
    show ("Year" : String) ≠ "Date" from by decide,
    show ("Year" : String) ≠ "Today" from by decide]

theorem set_dates_year_absent (keys : KwMap) (tz : TzData)
    (h : memk keys "Year" = false) :
    alookup (set_dates keys tz) "Year" = some tz.yearStr := by
  simp [set_dates, apply_ite (fun m => alookup m "Year"),
    apply_ite (fun m => memk m "Year"), alookup_aset, memk_aset, h,
    show ("Year" : String) ≠ "Date" from by decide,
    show ("Year" : String) ≠ "Today" from by decide]

/-- C7, counterexample.  The claim "each of firstname, Date, Today, and
Year is computed only if absent from the mapping, so a recipient-supplied
value for any of them is preserved" is false for `Date`: line 117 sets
`keywords['Date']` unconditionally, so a recipient who supplies
`Date = "X"` has it overwritten with the zone-computed timestamp. -/
theorem resolver_date_overwrite_cex :
    resolve_keywords "Bob Jones" "bob@y.com"
        [("email", "bob@y.com"), ("name", "Bob Jones"), ("timezone", "UTC"),
         ("Date", "X")] [] envUTC =
      .ok [("email", "bob@y.com"), ("name", "Bob Jones"), ("timezone", "UTC"),
           ("Date", "2026-10-12 14:00:00 +0000"), ("firstname", "Bob"),
           ("Today", "12 October"), ("Year", "2026")]
    ∧ (match resolve_keywords "Bob Jones" "bob@y.com"
          [("email", "bob@y.com"), ("name", "Bob Jones"), ("timezone", "UTC"),
           ("Date", "X")] [] envUTC with
        | .ok m => alookup m "Date"
        | .error _ => none) ≠ some "X" := by
  decide

/-- C7, amended.  In the resolved mapping: recipient keys take
precedence and keep their values — except `Date`, which is always
recomputed from the recipient's zone, overwriting any recipient-supplied
value; reserved configuration keys (`login`, `password`, `plainbody`,
`htmlbody`) are never copied; a non-reserved configuration key absent
from the recipient is copied (except `firstname`, which is derived from
`name` *before* the merge, so a configuration-supplied `firstname` is
shadowed by the derived one); `firstname` is derived as the text before
the first space of `name` when the recipient lacks it; and `Today` /
`Year` are computed only when absent from both the recipient and the
configuration. -/
theorem resolver_contract_amended (name dest : String) (keys smtpinfo : KwMap)
    (env : Env) (res : KwMap)
    (h : resolve_keywords name dest keys smtpinfo env = .ok res) :
    (∀ k, memk keys k = true → k ≠ "Date" → alookup res k = alookup keys k)
    ∧ (∀ k, reservedKey k = true → memk keys k = false → alookup res k = none)
    ∧ (∀ k, reservedKey k = false → memk keys k = false → k ≠ "firstname" →
        k ≠ "Date" → memk smtpinfo k = true →
        alookup res k = alookup smtpinfo k)
    ∧ (memk keys "firstname" = false →
        alookup res "firstname" = some (firstTok name))
    ∧ (∀ tzn tz, alookup res "timezone" = some tzn → env.tzinfo tzn = some tz →
        alookup res "Date" = some tz.dateStr
        ∧ (memk keys "Today" = false → memk smtpinfo "Today" = false →
            alookup res "Today" = some tz.todayStr)
        ∧ (memk keys "Year" = false → memk smtpinfo "Year" = false →
            alookup res "Year" = some tz.yearStr)) := by
  simp only [resolve_keywords] at h
  by_cases hat : hasChar dest '@' = false
  · rw [if_pos hat] at h
    exact (Except.noConfusion h)
  rw [if_neg hat] at h
  cases htzq : alookup (merge_config (set_firstname keys name) smtpinfo) "timezone" with
  | none =>
    simp only [htzq] at h
    exact (Except.noConfusion h)
  | some tzn0 =>
    simp only [htzq] at h
    cases htz0 : env.tzinfo tzn0 with
    | none =>
      simp only [htz0] at h
      exact (Except.noConfusion h)
    | some tz0 =>
      simp only [htz0, Except.ok.injEq] at h
      subst h
      refine ⟨?_, ?_, ?_, ?_, ?_⟩
      · -- recipient keys other than Date keep their values
        intro k hk hkD
        have h1 : alookup (set_firstname keys name) k = alookup keys k :=
          set_firstname_memk keys name k hk
        have hm1 : memk (set_firstname keys name) k = true := by
          simpa [memk, h1] using hk
        have h2 : alookup (merge_config (set_firstname keys name) smtpinfo) k =
            alookup keys k := by
          rw [merge_config_memk_mono smtpinfo _ k hm1, h1]
        have hm2 : memk (merge_config (set_firstname keys name) smtpinfo) k = true := by
          simpa [memk, h2] using hk
        by_cases hT : k = "Today"
        · subst hT; rw [set_dates_today_mem _ _ hm2, h2]
        by_cases hY : k = "Year"
        · subst hY; rw [set_dates_year_mem _ _ hm2, h2]
        rw [set_dates_other _ _ k hkD hT hY, h2]
      · -- reserved configuration keys are never copied
        intro k hres hk
        have hc : k = "login" ∨ k = "password" ∨ k = "plainbody" ∨ k = "htmlbody" := by
          have := hres
          simp [reservedKey] at this
          tauto
        have hnone : alookup keys k = none := (memk_false_iff keys k).mp hk
        rcases hc with rfl | rfl | rfl | rfl <;>
          rw [set_dates_other _ _ _ (by decide) (by decide) (by decide),
            merge_config_reserved smtpinfo _ _ hres,
            set_firstname_other _ _ _ (by decide), hnone]
      · -- non-reserved configuration keys absent from the recipient are copied
        intro k hresF hkF hkFn hkD hsm
        have h1 : alookup (set_firstname keys name) k = alookup keys k :=
          set_firstname_other keys name k hkFn
        have hm1 : memk (set_firstname keys name) k = false := by
          simpa [memk, h1] using hkF
        have h2 : alookup (merge_config (set_firstname keys name) smtpinfo) k =
            alookup smtpinfo k := merge_config_copies smtpinfo _ k hm1 hresF
        have hm2 : memk (merge_config (set_firstname keys name) smtpinfo) k = true := by
          simpa [memk, h2] using hsm
        by_cases hT : k = "Today"
        · subst hT; rw [set_dates_today_mem _ _ hm2, h2]
        by_cases hY : k = "Year"
        · subst hY; rw [set_dates_year_mem _ _ hm2, h2]
        rw [set_dates_other _ _ k hkD hT hY, h2]
      · -- derived firstname
        intro hf
        have h1 : alookup (set_firstname keys name) "firstname" =
            some (firstTok name) := set_firstname_absent keys name hf
        have hm1 : memk (set_firstname keys name) "firstname" = true := by
          simp [memk, h1]
        have h2 : alookup (merge_config (set_firstname keys name) smtpinfo)
            "firstname" = some (firstTok name) := by
          rw [merge_config_memk_mono smtpinfo _ _ hm1, h1]
        rw [set_dates_other _ _ _ (by decide) (by decide) (by decide), h2]
      · -- the Date / Today / Year block
        intro tzn tz htznr htzr
        have ht : alookup
            (set_dates (merge_config (set_firstname keys name) smtpinfo) tz0)
            "timezone" = some tzn0 := by
          rw [set_dates_other _ _ _ (by decide) (by decide) (by decide)]
          exact htzq
        rw [ht] at htznr
        injection htznr with htzn'
        subst htzn'
        rw [htz0] at htzr
        injection htzr with htz'
        subst htz'
        refine ⟨set_dates_date _ _, ?_, ?_⟩
        · intro hkT hsT
          have h1 : alookup (set_firstname keys name) "Today" =
              alookup keys "Today" := set_firstname_other _ _ _ (by decide)
          have hm1 : memk (set_firstname keys name) "Today" = false := by
            simpa [memk, h1] using hkT
          have h2 : alookup (merge_config (set_firstname keys name) smtpinfo)
              "Today" = alookup smtpinfo "Today" :=
            merge_config_copies smtpinfo _ _ hm1 (by decide)
          have hm2 : memk (merge_config (set_firstname keys name) smtpinfo)
              "Today" = false := by
            simpa [memk, h2] using hsT
          exact set_dates_today_absent _ _ hm2
        · intro hkY hsY
          have h1 : alookup (set_firstname keys name) "Year" =
              alookup keys "Year" := set_firstname_other _ _ _ (by decide)
          have hm1 : memk (set_firstname keys name) "Year" = false := by
            simpa [memk, h1] using hkY
          have h2 : alookup (merge_config (set_firstname keys name) smtpinfo)
              "Year" = alookup smtpinfo "Year" :=
            merge_config_copies smtpinfo _ _ hm1 (by decide)
          have hm2 : memk (merge_config (set_firstname keys name) smtpinfo)
              "Year" = false := by
            simpa [memk, h2] using hsY
          exact set_dates_year_absent _ _ hm2

/-- C7, witness: the amended theorem at the sample recipient and
configuration — recipient `name` preserved, reserved `login` absent,
`gateway` copied from the configuration, `firstname` derived, `Date` and
`Today` zone-computed. -/
theorem resolver_contract_amended_witness :
    alookup [("email", "bob@y.com"), ("name", "Bob Jones"), ("timezone", "UTC"),
        ("firstname", "Bob"), ("from", "A <a@x.com>"), ("gateway", "smtp.x.com"),
        ("Date", "2026-10-12 14:00:00 +0000"), ("Today", "12 October"),
        ("Year", "2026")] "name" = some "Bob Jones"
    ∧ alookup [("email", "bob@y.com"), ("name", "Bob Jones"), ("timezone", "UTC"),
        ("firstname", "Bob"), ("from", "A <a@x.com>"), ("gateway", "smtp.x.com"),
        ("Date", "2026-10-12 14:00:00 +0000"), ("Today", "12 October"),
        ("Year", "2026")] "login" = none
    ∧ alookup [("email", "bob@y.com"), ("name", "Bob Jones"), ("timezone", "UTC"),
        ("firstname", "Bob"), ("from", "A <a@x.com>"), ("gateway", "smtp.x.com"),
        ("Date", "2026-10-12 14:00:00 +0000"), ("Today", "12 October"),
        ("Year", "2026")] "gateway" = some "smtp.x.com"
    ∧ alookup [("email", "bob@y.com"), ("name", "Bob Jones"), ("timezone", "UTC"),
        ("firstname", "Bob"), ("from", "A <a@x.com>"), ("gateway", "smtp.x.com"),
        ("Date", "2026-10-12 14:00:00 +0000"), ("Today", "12 October"),
        ("Year", "2026")] "firstname" = some "Bob"
    ∧ alookup [("email", "bob@y.com"), ("name", "Bob Jones"), ("timezone", "UTC"),
        ("firstname", "Bob"), ("from", "A <a@x.com>"), ("gateway", "smtp.x.com"),
        ("Date", "2026-10-12 14:00:00 +0000"), ("Today", "12 October"),
        ("Year", "2026")] "Date" = some "2026-10-12 14:00:00 +0000"
    ∧ alookup [("email", "bob@y.com"), ("name", "Bob Jones"), ("timezone", "UTC"),
        ("firstname", "Bob"), ("from", "A <a@x.com>"), ("gateway", "smtp.x.com"),
        ("Date", "2026-10-12 14:00:00 +0000"), ("Today", "12 October"),
        ("Year", "2026")] "Today" = some "12 October" := by
  have h : resolve_keywords "Bob Jones" "bob@y.com"
      [("email", "bob@y.com"), ("name", "Bob Jones"), ("timezone", "UTC")]
      smtpBase envUTC =
      .ok [("email", "bob@y.com"), ("name", "Bob Jones"), ("timezone", "UTC"),
        ("firstname", "Bob"), ("from", "A <a@x.com>"), ("gateway", "smtp.x.com"),
        ("Date", "2026-10-12 14:00:00 +0000"), ("Today", "12 October"),
        ("Year", "2026")] := by decide
  have H := resolver_contract_amended "Bob Jones" "bob@y.com"
    [("email", "bob@y.com"), ("name", "Bob Jones"), ("timezone", "UTC")]
    smtpBase envUTC _ h
  refine ⟨?_, ?_, ?_, ?_, ?_, ?_⟩
  · exact (H.1 "name" (by decide) (by decide)).trans (by decide)
  · exact H.2.1 "login" (by decide) (by decide)
  · exact (H.2.2.1 "gateway" (by decide) (by decide) (by decide) (by decide)
      (by decide)).trans (by decide)
  · exact (H.2.2.2.1 (by decide)).trans (by decide)
  · exact (H.2.2.2.2 "UTC" utcMonday14 (by decide) (by decide)).1.trans (by decide)
  · exact ((H.2.2.2.2 "UTC" utcMonday14 (by decide) (by decide)).2.1 (by decide)
      (by decide)).trans (by decide)

/-! ## Claim C8 — template freshness gating -/

/-- C8, counterexample.  The claim "the age check is performed exactly
once per run, before the first recipient, not once per recipient" is
false: `send_emails_to_csv_people` runs the `maxagehours` check inside
the per-recipient action, so a two-recipient run with a fresh template
performs it twice (both results record `ageChecked`), not once. -/
theorem template_age_once_cex :
    (process_csv_file
        ["email,name,timezone", "bob@y.com,Bob Jones,UTC", "c@y.com,Carol Smith,UTC"]
        (fun row reg => send_emails_to_csv_people row smtpAged flagsNone envUTC reg)
        emptyRegistry).2.map (fun rs => rs.map (fun r => r.ageChecked)) =
      .ok [true, true]
    ∧ ¬ ((process_csv_file
        ["email,name,timezone", "bob@y.com,Bob Jones,UTC", "c@y.com,Carol Smith,UTC"]
        (fun row reg => send_emails_to_csv_people row smtpAged flagsNone envUTC reg)
        emptyRegistry).2.map
          (fun rs => (rs.filter (fun r => r.ageChecked)).length) = .ok 1) := by
  decide

theorem csv_stale_helper (header : List String) (smtpkw : KwMap) (flags : Flags)
    (env : Env) (mstr : String) (m : Int)
    (hmax : alookup smtpkw "maxagehours" = some mstr)
    (hint : pyInt mstr = some m) (hstale : env.fileAgeSeconds > 3600 * m) :
    ∀ (rows : List String) (reg : Registry),
      (csvLoop header (fun row r => send_emails_to_csv_people row smtpkw flags env r)
          rows reg).1 = reg
      ∧ ∀ rs, (csvLoop header
          (fun row r => send_emails_to_csv_people row smtpkw flags env r)
          rows reg).2 = .ok rs → rs = [] := by
  intro rows
  induction rows with
  | nil =>
    intro reg
    refine ⟨rfl, fun rs h => ?_⟩
    simp only [csvLoop] at h
    injection h with h'
    exact h'.symm
  | cons line rest ih =>
    intro reg
    by_cases hb : pyStrip line = ""
    · refine ⟨?_, fun rs h => ?_⟩
      · simp [csvLoop, hb]
      · simp only [csvLoop] at h
        rw [if_pos hb] at h
        injection h with h'
        exact h'.symm
    · by_cases hcm : startsWithL ['#'] (pyStrip line).data = true
      · have hstep : csvLoop header
            (fun row r => send_emails_to_csv_people row smtpkw flags env r)
            (line :: rest) reg =
            csvLoop header
              (fun row r => send_emails_to_csv_people row smtpkw flags env r)
              rest reg := by
          simp only [csvLoop]
          rw [if_neg hb, if_pos hcm]
        rw [hstep]
        exact ih reg
      · by_cases har : (splitComma (pyStrip line)).length ≠ header.length
        · refine ⟨?_, fun rs h => ?_⟩
          · simp only [csvLoop]
            rw [if_neg hb, if_neg hcm, if_pos har]
          · simp only [csvLoop] at h
            rw [if_neg hb, if_neg hcm, if_pos har] at h
            exact (Except.noConfusion h)
        · have hact : send_emails_to_csv_people
              (mkRow header (splitComma (pyStrip line))) smtpkw flags env reg =
              (reg, .error (.staleTemplate env.fileAgeSeconds)) := by
            simp only [send_emails_to_csv_people, hmax, hint]
            rw [if_pos hstale]
          refine ⟨?_, fun rs h => ?_⟩
          · simp only [csvLoop]
            rw [if_neg hb, if_neg hcm, if_neg har]
            simp only [hact]
          · simp only [csvLoop] at h
            rw [if_neg hb, if_neg hcm, if_neg har] at h
            simp only [hact] at h
            exact (Except.noConfusion h)

theorem send_action_agechecked (smtpkw : KwMap) (flags : Flags) (env : Env)
    (mstr : String) (hmax : alookup smtpkw "maxagehours" = some mstr) :
    ∀ (row : KwMap) (reg : Registry) (res : ActionResult),
      (send_emails_to_csv_people row smtpkw flags env reg).2 = .ok res →
      res.ageChecked = true := by
  intro row reg res hr
  simp only [send_emails_to_csv_people, hmax] at hr
  cases hpi : pyInt mstr with
  | none =>
    simp only [hpi] at hr
    exact (Except.noConfusion hr)
  | some mv =>
    simp only [hpi] at hr
    by_cases hst : env.fileAgeSeconds > 3600 * mv
    · rw [if_pos hst] at hr
      exact (Except.noConfusion hr)
    · rw [if_neg hst] at hr
      cases hfm : (format_and_send_email env.templateBody env.templateSubject
          smtpkw row flags env reg).2 with
      | error e =>
        rw [hfm] at hr
        exact (Except.noConfusion hr)
      | ok fs =>
        rw [hfm] at hr
        injection hr with h'
        rw [← h']

theorem csv_agechecked_helper (header : List String) (smtpkw : KwMap)
    (flags : Flags) (env : Env) (mstr : String)
    (hmax : alookup smtpkw "maxagehours" = some mstr) :
    ∀ (rows : List String) (reg : Registry) (rs : List ActionResult),
      (csvLoop header (fun row r => send_emails_to_csv_people row smtpkw flags env r)
          rows reg).2 = .ok rs → ∀ r ∈ rs, r.ageChecked = true := by
  intro rows
  induction rows with
  | nil =>
    intro reg rs h
    simp only [csvLoop] at h
    injection h with h'
    subst h'
    intro r hr
    cases hr
  | cons line rest ih =>
    intro reg rs h
    simp only [csvLoop] at h
    by_cases hb : pyStrip line = ""
    · rw [if_pos hb] at h
      injection h with h'
      subst h'
      intro r hr
      cases hr
    · rw [if_neg hb] at h
      by_cases hcm : startsWithL ['#'] (pyStrip line).data = true
      · rw [if_pos hcm] at h
        exact ih reg rs h
      · rw [if_neg hcm] at h
        by_cases har : (splitComma (pyStrip line)).length ≠ header.length
        · rw [if_pos har] at h
          exact (Except.noConfusion h)
        · rw [if_neg har] at h
          cases hact : (send_emails_to_csv_people
              (mkRow header (splitComma (pyStrip line))) smtpkw flags env reg).2 with
          | error e =>
            rw [hact] at h
            exact (Except.noConfusion h)
          | ok res =>
            rw [hact] at h
            cases htl : (csvLoop header
                (fun row r => send_emails_to_csv_people row smtpkw flags env r)
                rest (send_emails_to_csv_people
                  (mkRow header (splitComma (pyStrip line))) smtpkw flags env reg).1).2 with
            | error e =>
              rw [htl] at h
              exact (Except.noConfusion h)
            | ok rs' =>
              rw [htl] at h
              injection h with h'
              subst h'
              intro r hr
              rcases List.mem_cons.mp hr with rfl | hr'
              · exact send_action_agechecked smtpkw flags env mstr hmax _ _ _ hact
              · exact ih _ rs' htl r hr'

/-- C8, amended.  The `maxagehours` check runs inside the per-recipient
action (`send_emails_to_csv_people`), hence once per recipient, not once
per run: every recipient actually processed performs it (every produced
result records `ageChecked`); and when the template is stale the run
fails at the first recipient's action — the registry is left untouched
and no recipient result is ever produced, so no recipient is processed
and nothing is sent. -/
theorem template_age_amended (header : List String) (smtpkw : KwMap)
    (flags : Flags) (env : Env) (rows : List String) (reg : Registry)
    (mstr : String) (m : Int)
    (hmax : alookup smtpkw "maxagehours" = some mstr)
    (hint : pyInt mstr = some m) :
    (env.fileAgeSeconds > 3600 * m →
      (csvLoop header (fun row r => send_emails_to_csv_people row smtpkw flags env r)
          rows reg).1 = reg
      ∧ ∀ rs, (csvLoop header
          (fun row r => send_emails_to_csv_people row smtpkw flags env r)
          rows reg).2 = .ok rs → rs = [])
    ∧ (∀ rs, (csvLoop header
          (fun row r => send_emails_to_csv_people row smtpkw flags env r)
          rows reg).2 = .ok rs → ∀ r ∈ rs, r.ageChecked = true) := by
  exact ⟨fun hst => csv_stale_helper header smtpkw flags env mstr m hmax hint hst rows reg,
    fun rs h r hr => csv_agechecked_helper header smtpkw flags env mstr hmax rows reg rs h r hr⟩

/-- C8, witness: the amended theorem at concrete runs — a stale run
(age 90000 s > 24 h) leaves the registry untouched, and in the fresh
two-recipient run of `template_age_once_cex` each produced result
records the age check. -/
theorem template_age_amended_witness :
    (csvLoop ["email", "name", "timezone"]
        (fun row r => send_emails_to_csv_people row smtpAged flagsNone
          ⟨fun s => if s = "UTC" then some utcMonday14 else none, 90000,
            "Hi @@firstname@@\n", "Welcome @@name@@!"⟩ r)
        ["bob@y.com,Bob Jones,UTC"] emptyRegistry).1 = emptyRegistry
    ∧ (⟨true, ⟨.accepted, some ⟨"Bob Jones <bob@y.com>", "Hi Bob",
          "Welcome Bob Jones!"⟩⟩⟩ : ActionResult).ageChecked = true := by
  constructor
  · exact ((template_age_amended ["email", "name", "timezone"] smtpAged flagsNone
      ⟨fun s => if s = "UTC" then some utcMonday14 else none, 90000,
        "Hi @@firstname@@\n", "Welcome @@name@@!"⟩
      ["bob@y.com,Bob Jones,UTC"] emptyRegistry "24" 24 (by decide) (by decide)).1
      (by decide)).1
  · exact (template_age_amended ["email", "name", "timezone"] smtpAged flagsNone
      envUTC ["bob@y.com,Bob Jones,UTC", "c@y.com,Carol Smith,UTC"] emptyRegistry
      "24" 24 (by decide) (by decide)).2
      [⟨true, ⟨.accepted, some ⟨"Bob Jones <bob@y.com>", "Hi Bob",
          "Welcome Bob Jones!"⟩⟩⟩,
       ⟨true, ⟨.accepted, some ⟨"Carol Smith <c@y.com>", "Hi Carol",
          "Welcome Carol Smith!"⟩⟩⟩] (by decide) _ (List.mem_cons_self _ _)

/-! ## Claim C9 — pipeline step order -/

/-- C9, counterexample.  The claim "a recipient whose email does not
contain '@' is rejected with InvalidAddressError before the Duplicate
Guard check … and leaves the duplicate registry unchanged" is false:
the guard (lines 92-99) runs before the address check (line 113), so a
fresh recipient with email `bobnoat` is first registered in both
registries and only then rejected — the registry is visibly changed —
while a recipient whose `@`-less email is already registered is
rejected as a duplicate with no `InvalidAddressError` at all. -/
theorem pipeline_order_cex :
    format_and_send_email "body" "subj" []
        [("email", "bobnoat"), ("name", "Bob"), ("timezone", "UTC")]
        flagsNone envUTC emptyRegistry =
      (⟨[("bobnoat", "bob")], [("bob", "bobnoat")]⟩,
       .error (.invalidAddress "Bob" "bobnoat"))
    ∧ format_and_send_email "body" "subj" []
        [("email", "bobnoat"), ("name", "Zed"), ("timezone", "UTC")]
        flagsNone envUTC ⟨[("bobnoat", "bob")], [("bob", "bobnoat")]⟩ =
      (⟨[("bobnoat", "bob")], [("bob", "bobnoat")]⟩, .ok ⟨.duplicateEmail, none⟩)
    ∧ (⟨[("bobnoat", "bob")], [("bob", "bobnoat")]⟩ : Registry) ≠ emptyRegistry := by
  decide

/-- C9, amended.  The Duplicate Guard runs first, before the address
check, the substitution and the transport: a duplicate email is rejected
(registry unchanged, no transport call, no error — even for a template
whose placeholders are unbound, showing substitution was not reached); a
duplicate name is rejected after recording the email; and a fresh pair
whose email lacks `@` is first registered in both registries and then
rejected with `InvalidAddressError` — for every template text, so
substitution is never reached. -/
theorem pipeline_order_amended (text subject : String) (smtpinfo keys : KwMap)
    (flags : Flags) (env : Env) (reg : Registry) (dest name : String)
    (hem : alookup keys "email" = some dest)
    (hnm : alookup keys "name" = some name) :
    (memk reg.allemails (pyLower dest) = true →
      format_and_send_email text subject smtpinfo keys flags env reg =
        (reg, .ok ⟨.duplicateEmail, none⟩))
    ∧ (memk reg.allemails (pyLower dest) = false →
        memk reg.allnames (pyLower name) = true →
      format_and_send_email text subject smtpinfo keys flags env reg =
        ({ reg with allemails := aset reg.allemails (pyLower dest) (pyLower name) },
         .ok ⟨.duplicateName, none⟩))
    ∧ (memk reg.allemails (pyLower dest) = false →
        memk reg.allnames (pyLower name) = false →
        hasChar dest '@' = false →
      format_and_send_email text subject smtpinfo keys flags env reg =
        (⟨aset reg.allemails (pyLower dest) (pyLower name),
          aset reg.allnames (pyLower name) (pyLower dest)⟩,
         .error (.invalidAddress name dest))) := by
  refine ⟨?_, ?_, ?_⟩
  · intro h1
    simp only [format_and_send_email, hem, hnm, check_and_register]
    rw [if_pos h1]
  · intro h1 h2
    simp only [format_and_send_email, hem, hnm, check_and_register]
    rw [if_neg (by simp [h1]), if_pos h2]
  · intro h1 h2 h3
    have hres : resolve_keywords name dest keys smtpinfo env =
        .error (.invalidAddress name dest) := by
      simp only [resolve_keywords]
      rw [if_pos h3]
    simp only [format_and_send_email, hem, hnm, check_and_register]
    rw [if_neg (by simp [h1]), if_neg (by simp [h2])]
    simp only [hres]

/-- C9, witness: the amended theorem at concrete inputs — all three
guard-first behaviors, with an unbound-placeholder template in the
duplicate case (substitution never reached). -/
theorem pipeline_order_amended_witness :
    format_and_send_email "@@unbound@@" "s" []
        [("email", "bob@y.com"), ("name", "Zed"), ("timezone", "UTC")]
        flagsNone envUTC ⟨[("bob@y.com", "bob")], [("bob", "bob@y.com")]⟩ =
      (⟨[("bob@y.com", "bob")], [("bob", "bob@y.com")]⟩,
       .ok ⟨.duplicateEmail, none⟩)
    ∧ format_and_send_email "@@unbound@@" "s" []
        [("email", "new@y.com"), ("name", "Bob"), ("timezone", "UTC")]
        flagsNone envUTC ⟨[("bob@y.com", "bob")], [("bob", "bob@y.com")]⟩ =
      (⟨[("bob@y.com", "bob"), ("new@y.com", "bob")], [("bob", "bob@y.com")]⟩,
       .ok ⟨.duplicateName, none⟩)
    ∧ format_and_send_email "@@unbound@@" "s" []
        [("email", "bobnoat"), ("name", "Bob"), ("timezone", "UTC")]
        flagsNone envUTC emptyRegistry =
      (⟨[("bobnoat", "bob")], [("bob", "bobnoat")]⟩,
       .error (.invalidAddress "Bob" "bobnoat")) := by
  refine ⟨?_, ?_, ?_⟩
  · exact (pipeline_order_amended "@@unbound@@" "s" []
      [("email", "bob@y.com"), ("name", "Zed"), ("timezone", "UTC")]
      flagsNone envUTC ⟨[("bob@y.com", "bob")], [("bob", "bob@y.com")]⟩
      "bob@y.com" "Zed" (by decide) (by decide)).1 (by decide)
  · exact (pipeline_order_amended "@@unbound@@" "s" []
      [("email", "new@y.com"), ("name", "Bob"), ("timezone", "UTC")]
      flagsNone envUTC ⟨[("bob@y.com", "bob")], [("bob", "bob@y.com")]⟩
      "new@y.com" "Bob" (by decide) (by decide)).2.1 (by decide) (by decide)
  · exact (pipeline_order_amended "@@unbound@@" "s" []
      [("email", "bobnoat"), ("name", "Bob"), ("timezone", "UTC")]
      flagsNone envUTC emptyRegistry
      "bobnoat" "Bob" (by decide) (by decide)).2.2 (by decide) (by decide)
      (by decide)

/-! ## Claim C10 — blank line terminates the recipient table -/

/-- C10.  Data-row processing stops at the first blank (after `strip`)
line: a run on `rows1 ++ blank :: rows2` equals the run on
`rows1 ++ [blank]` — the rows after the blank line influence nothing
(they are never processed and raise no error) — and a run whose first
data line is blank returns immediately with no results and an untouched
registry. -/
theorem blank_line_terminates (header : List String)
    (action : KwMap → Registry → Registry × Except PyErr ActionResult)
    (rows1 rows2 : List String) (b : String) (reg : Registry)
    (hb : pyStrip b = "") :
    csvLoop header action (rows1 ++ b :: rows2) reg =
      csvLoop header action (rows1 ++ [b]) reg
    ∧ csvLoop header action (b :: rows2) reg = (reg, .ok []) := by
  have hstop : ∀ (rws : List String) (rg : Registry),
      csvLoop header action (b :: rws) rg = (rg, .ok []) := by
    intro rws rg
    simp only [csvLoop]
    rw [if_pos hb]
  refine ⟨?_, hstop rows2 reg⟩
  induction rows1 generalizing reg with
  | nil =>
    simp only [List.nil_append]
    rw [hstop rows2 reg, hstop [] reg]
  | cons r rs ih =>
    simp only [List.cons_append, csvLoop]
    by_cases h1 : pyStrip r = ""
    · rw [if_pos h1, if_pos h1]
    · rw [if_neg h1, if_neg h1]
      by_cases h2 : startsWithL ['#'] (pyStrip r).data = true
      · rw [if_pos h2, if_pos h2]
        exact ih reg
      · rw [if_neg h2, if_neg h2]
        by_cases h3 : (splitComma (pyStrip r)).length ≠ header.length
        · rw [if_pos h3, if_pos h3]
        · rw [if_neg h3, if_neg h3]
          cases hact : (action (mkRow header (splitComma (pyStrip r))) reg).2 with
          | error e => simp only [hact]
          | ok res =>
            simp only [hact, List.append_eq]
            rw [ih ((action (mkRow header (splitComma (pyStrip r))) reg).1)]

/-- C10, witness: the theorem at a concrete table — everything after the
blank line (including a malformed row that would raise `RowArityError`)
is ignored, and a table whose first data row is blank yields no work. -/
theorem blank_line_terminates_witness :
    csvLoop ["email", "name", "timezone"]
        (fun row r => send_emails_to_csv_people row smtpBase flagsNone envUTC r)
        (["bob@y.com,Bob Jones,UTC"] ++ "" :: ["garbage-row"]) emptyRegistry =
      csvLoop ["email", "name", "timezone"]
        (fun row r => send_emails_to_csv_people row smtpBase flagsNone envUTC r)
        (["bob@y.com,Bob Jones,UTC"] ++ [""]) emptyRegistry
    ∧ csvLoop ["email", "name", "timezone"]
        (fun row r => send_emails_to_csv_people row smtpBase flagsNone envUTC r)
        ("" :: ["garbage-row"]) emptyRegistry = (emptyRegistry, .ok []) := by
  exact blank_line_terminates ["email", "name", "timezone"]
    (fun row r => send_emails_to_csv_people row smtpBase flagsNone envUTC r)
    ["bob@y.com,Bob Jones,UTC"] ["garbage-row"] "" emptyRegistry (by decide)
